import Mathlib

/-!
Verification development for the natural-language-to-SQL assistant in
`src/agent.py`.  The repository is a thin orchestration layer: `create_agent`
wires three tool closures (SQL execution, schema introspection, CSV export)
around an externally supplied sqlite connection and hands them to a
framework-owned bounded reasoning loop (`dspy.ReAct`, `max_iters=7`).

The tool bodies (`execute_sql`, `get_schema`, `save_data_to_csv`) live in the
repository's `tools` module, which is not present under `src/`; only their
callers and tool descriptions in `src/agent.py` are.  Those three functions
are therefore modelled from the spec, as marked on each definition.  The
external sqlite driver is modelled as an abstract `Connection` whose
operations may fail with an error message (a raised exception's text).
-/

/-- Outcome of a successful driver-level execution of one SQL statement:
either a result set (a SELECT) or a completed write (INSERT/UPDATE/DELETE). -/
inductive DriverOutcome where
  | rows (data : List (List String))
  | writeOk
deriving DecidableEq, Repr

/-- Abstract model of an open sqlite3 connection, externally supplied to
`create_agent`.  Each driver operation either succeeds or raises an exception
carrying a message string (`Except.error`). -/
structure Connection where
  exec : String → Except String DriverOutcome
  listTables : Unit → Except String (List String)
  tableInfo : String → Except String (List (String × String))

/-- Rendering of a SELECT result set as a single string, as the tool returns
row data in text form. -/
def renderRows (data : List (List String)) : String :=
  String.intercalate "\n" (data.map (fun r => String.intercalate ", " r))

/-- Success confirmation message returned for completed writes. -/
def writeSuccessMsg : String := "Query executed successfully."

/-- Modelled from the spec: `execute_sql` of the repository's `tools` module is
not under `src/`.  Per the spec ("given a SQL string, executes it against an
open connection, returns row data for reads or a confirmation for writes, and
returns the error text on failure; optionally appends the query to a history
list") and the tool description in `src/agent.py`: the query is passed verbatim
to the driver; a raised exception is swallowed into its message string; when a
history list is supplied the executed query is appended to it.  The Python
in-place list mutation is embedded as state passing: the function returns the
output string together with the updated history. -/
def execute_sql (conn : Connection) (query : String)
    (query_history : Option (List String)) : String × Option (List String) :=
  let h' := query_history.map (fun h => h ++ [query])
  match conn.exec query with
  | .error e => (e, h')
  | .ok (.rows data) => (renderRows data, h')
  | .ok .writeOk => (writeSuccessMsg, h')

/-- Rendering of the full table-name listing. -/
def renderTableList (ts : List String) : String :=
  "Tables: " ++ String.intercalate ", " ts

/-- Rendering of one table's column/type description. -/
def renderColumns (t : String) (cols : List (String × String)) : String :=
  "Table " ++ t ++ " columns: " ++
    String.intercalate ", " (cols.map (fun c => c.1 ++ " " ++ c.2))

/-- Modelled from the spec: `get_schema` of the repository's `tools` module is
not under `src/`.  Per the spec ("given an optional table name, returns either
the full list of table names or one table's column/type description";
"Failure: none specified; underlying driver errors propagate") and the tool
description in `src/agent.py`: with no table name it lists all table names,
with a table name it describes that table's columns and data types, and there
is no exception handler, so a driver error propagates to the caller
(`Except.error`).  The behaviour on an unknown table name is left to the
driver operation `tableInfo`, which the spec marks as ambiguous. -/
def get_schema (conn : Connection) (table_name : Option String) :
    Except String String :=
  match table_name with
  | none => (conn.listTables ()).map renderTableList
  | some t => (conn.tableInfo t).map (renderColumns t)

/-- One CSV line: fields joined by commas. -/
def csvRow (row : List String) : String := String.intercalate "," row

/-- CSV text for a list of rows: one comma-separated line per row. -/
def csvText (data : List (List String)) : String :=
  String.intercalate "\n" (data.map csvRow)

/-- A flat model of the filesystem: an association of paths to file contents;
writing replaces any previous file at the same path. -/
def writeFileAt (fs : List (String × String)) (path contents : String) :
    List (String × String) :=
  (path, contents) :: fs.filter (fun pc => pc.1 ≠ path)

/-- Reading a path back from the filesystem model. -/
def readFileAt (fs : List (String × String)) (path : String) : Option String :=
  (fs.find? (fun pc => pc.1 = path)).map (fun pc => pc.2)

/-- Modelled from the spec: `save_data_to_csv` of the repository's `tools`
module is not under `src/`.  Per the spec ("given tabular data and a
destination path, writes the data as CSV and returns the saved path"; "CSV
export produces a file at the given path whose contents match the input rows
exactly") and the tool description in `src/agent.py` ("Returns a success
message with the path of the saved file"): the rows are written as CSV text at
exactly `file_path` and a success message carrying the path is returned.  The
file write is embedded as state passing over the filesystem model. -/
def save_data_to_csv (fs : List (String × String)) (data : List (List String))
    (file_path : String) : List (String × String) × String :=
  (writeFileAt fs file_path (csvText data),
   "Data saved successfully to " ++ file_path)

/-- The mutable world visible to the tool closures built by `create_agent`:
the optional externally owned query-history list and the filesystem. -/
structure World where
  history : Option (List String)
  fs : List (String × String)
deriving DecidableEq, Repr

/-- One tool invocation, as routed by the agent runtime to the three closures
of `create_agent` (src/agent.py lines 94-115). -/
inductive ToolCall where
  | execSql (query : String)
  | getSchema (table_name : Option String)
  | saveCsv (data : List (List String)) (file_path : String)
deriving DecidableEq, Repr

/-- Effect of one tool invocation on the world, following the closures in
`create_agent`: the `execute_sql` lambda captures `conn` and `query_history`;
the `get_schema` lambda captures only `conn`; `save_data_to_csv` is passed
through directly and touches only the filesystem. -/
def runTool (conn : Connection) (w : World) : ToolCall → World
  | .execSql q => { w with history := (execute_sql conn q w.history).2 }
  | .getSchema t =>
      let _ := get_schema conn t
      w
  | .saveCsv data p => { w with fs := (save_data_to_csv w.fs data p).1 }

/-- Sequential execution of a list of tool invocations (the agent loop is
single-threaded and synchronous). -/
def runTools (conn : Connection) : List ToolCall → World → World
  | [], w => w
  | c :: cs, w => runTools conn cs (runTool conn w c)

/-- The SQL strings passed to the `execute_sql` tool in a call sequence, in
call order. -/
def sqlQueries : List ToolCall → List String
  | [] => []
  | .execSql q :: rest => q :: sqlQueries rest
  | .getSchema _ :: rest => sqlQueries rest
  | .saveCsv _ _ :: rest => sqlQueries rest

/-- A step decision by the external language model inside the reasoning loop:
either pick a tool to call next, or finish with an answer. -/
inductive StepDecision where
  | callTool (c : ToolCall)
  | finish (answer : String)
deriving Repr

/-- Modelled from the spec: the reasoning loop belongs to the third-party
`dspy.ReAct` framework, not to this repository; the spec states the tools are
invoked "inside a bounded iteration loop (at most seven tool calls) that is
entirely framework-owned".  The loop consults a policy (the external model) at
each step index; a tool call consumes one iteration, a finish decision stops
the loop, and the loop stops unconditionally once the iteration budget `fuel`
is spent.  The function counts the tool calls performed. -/
def reactToolCallCount (policy : Nat → StepDecision) : Nat → Nat → Nat
  | 0, _ => 0
  | fuel + 1, step =>
    match policy step with
    | .finish _ => 0
    | .callTool _ => reactToolCallCount policy fuel (step + 1) + 1

/-- Embedding of the `SQLAgent` module (src/agent.py lines 63-77): it holds a
`dspy.ReAct` agent over the given tools with a fixed iteration cap. -/
structure SQLAgentModel where
  maxIters : Nat
  toolNames : List String
deriving DecidableEq, Repr

/-- Embedding of `SQLAgent.__init__` (src/agent.py lines 65-72): the ReAct
agent is constructed with `max_iters=7`. -/
def SQLAgent.init (toolNames : List String) : SQLAgentModel :=
  { maxIters := 7, toolNames := toolNames }

/-- Embedding of `SQLAgent.forward` (src/agent.py lines 74-77): one agent
invocation runs the framework loop under the configured iteration cap;
the result here is the number of tool calls the loop performs. -/
def SQLAgent.forwardToolCalls (a : SQLAgentModel) (policy : Nat → StepDecision) :
    Nat :=
  reactToolCallCount policy a.maxIters 0

/-- Embedding of the `dspy.LM` object constructed by `configure_llm`. -/
structure LM where
  model : String
  max_tokens : Nat
deriving DecidableEq, Repr

/-- Embedding of `configure_llm` (src/agent.py lines 80-87): it loads the
environment, unconditionally constructs `dspy.LM(model="openai/gpt-4o-mini",
max_tokens=4000)`, installs it in the global settings, and returns it; no
branch returns `None` or raises. -/
def configure_llm : LM :=
  { model := "openai/gpt-4o-mini", max_tokens := 4000 }

/-- Python truthiness of the object returned by `configure_llm`: `dspy.LM`
instances define neither `__bool__` nor `__len__`, so `bool(obj)` is `True`
for every instance; `not configure_llm()` is therefore always `False`. -/
def LM.pyTruthy (_ : LM) : Bool := true

/-- Embedding of `create_agent` (src/agent.py lines 90-122): it calls
`configure_llm`, returns `None` early if the result is falsy, otherwise
builds the three tool closures and returns the constructed `SQLAgent`.
The tool closures themselves are embedded by `runTool`. -/
def create_agent (_conn : Connection) (_query_history : Option (List String)) :
    Option SQLAgentModel :=
  if (configure_llm).pyTruthy = false then
    none
  else
    some (SQLAgent.init ["execute_sql", "get_schema", "save_data_to_csv"])

/-- The history output of `execute_sql` appends the query to the supplied
list, whatever the driver outcome. -/
theorem execute_sql_snd (conn : Connection) (q : String)
    (h : Option (List String)) :
    (execute_sql conn q h).2 = h.map (fun l => l ++ [q]) := by
  unfold execute_sql
  cases conn.exec q with
  | error e => rfl
  | ok o => cases o <;> rfl

/-- After any sequence of tool invocations, the history has gained exactly
the SQL strings routed through the `execute_sql` tool, in call order. -/
theorem runTools_history (conn : Connection) (calls : List ToolCall)
    (w : World) :
    (runTools conn calls w).history =
      w.history.map (fun l => l ++ sqlQueries calls) := by
  induction calls generalizing w with
  | nil => cases hw : w.history <;> simp [runTools, sqlQueries, hw]
  | cons c cs ih =>
    cases c with
    | execSql q =>
      simp only [runTools, runTool, ih, execute_sql_snd, sqlQueries]
      cases hw : w.history <;> simp [hw]
    | getSchema t => simp [runTools, runTool, ih, sqlQueries]
    | saveCsv d p => simp [runTools, runTool, ih, sqlQueries]

/-- A connection on which every driver operation raises. -/
def errConn : Connection :=
  { exec := fun _ => .error "no such table: users",
    listTables := fun _ => .error "database is locked",
    tableInfo := fun _ => .error "database is locked" }

/-- A connection whose driver echoes the executed SQL text back as a one-cell
result set, exposing exactly what text reached the driver. -/
def echoConn : Connection :=
  { exec := fun q => .ok (.rows [[q]]),
    listTables := fun _ => .ok ["users", "orders"],
    tableInfo := fun _ => .ok [("id", "INTEGER"), ("name", "TEXT")] }

/-- A connection on which every statement completes as a successful write. -/
def writeConn : Connection :=
  { exec := fun _ => .ok .writeOk,
    listTables := fun _ => .ok ["users"],
    tableInfo := fun _ => .ok [("id", "INTEGER")] }

/-- Claim C1: for every SQL string, `execute_sql` returns a string and never
propagates an exception: row data when the driver yields a result set, the
success confirmation when a write completes, and the exception's message text
when execution fails — so success and failure are distinguishable only by the
text content of the returned string. -/
theorem execute_sql_always_returns_string (conn : Connection) (q : String)
    (h : Option (List String)) :
    (∀ e, conn.exec q = .error e → (execute_sql conn q h).1 = e) ∧
    (∀ data, conn.exec q = .ok (.rows data) →
      (execute_sql conn q h).1 = renderRows data) ∧
    (conn.exec q = .ok .writeOk → (execute_sql conn q h).1 = writeSuccessMsg) := by
  refine ⟨fun e he => ?_, fun data hd => ?_, fun hw => ?_⟩
  · simp [execute_sql, he]
  · simp [execute_sql, hd]
  · simp [execute_sql, hw]

/-- Witness for C1 at concrete connections: a failing driver's message, an
echoing driver's rows, and a write confirmation are each returned as plain
strings. -/
theorem execute_sql_always_returns_string_witness :
    (execute_sql errConn "SELECT * FROM users" (some [])).1 =
      "no such table: users" ∧
    (execute_sql echoConn "SELECT 1" none).1 = renderRows [["SELECT 1"]] ∧
    (execute_sql writeConn "DELETE FROM users" none).1 = writeSuccessMsg :=
  ⟨(execute_sql_always_returns_string errConn "SELECT * FROM users"
      (some [])).1 "no such table: users" rfl,
   (execute_sql_always_returns_string echoConn "SELECT 1" none).2.1
      [["SELECT 1"]] rfl,
   (execute_sql_always_returns_string writeConn "DELETE FROM users" none).2.2
      rfl⟩

/-- Claim C2: `execute_sql` performs no validation or gating: the query text
reaches the driver verbatim (an echoing driver returns exactly the given
string, destructive or not), and any two queries the driver treats alike
produce identical outputs, so no refusal, confirmation token or preview is
enforced in code. -/
theorem execute_sql_no_gating (q₁ q₂ : String) (h : Option (List String))
    (conn : Connection) :
    (execute_sql echoConn q₁ h).1 = renderRows [[q₁]] ∧
    (conn.exec q₁ = conn.exec q₂ →
      (execute_sql conn q₁ h).1 = (execute_sql conn q₂ h).1) := by
  refine ⟨by simp [execute_sql, echoConn], fun he => ?_⟩
  unfold execute_sql
  rw [he]
  cases conn.exec q₂ with
  | error e => rfl
  | ok o => cases o <;> rfl

/-- Witness for C2: a destructive statement is passed through verbatim, and a
read and a destructive statement are handled identically by the code when the
driver treats them alike. -/
theorem execute_sql_no_gating_witness :
    (execute_sql echoConn "DROP TABLE users" none).1 =
      renderRows [["DROP TABLE users"]] ∧
    (execute_sql writeConn "SELECT name FROM users" none).1 =
      (execute_sql writeConn "DROP TABLE users" none).1 :=
  ⟨(execute_sql_no_gating "DROP TABLE users" "x" none writeConn).1,
   (execute_sql_no_gating "SELECT name FROM users" "DROP TABLE users" none
      writeConn).2 rfl⟩

/-- Claim C3: `get_schema` with no table name returns a string listing all
table names the driver reports, and with an existing table name returns a
string describing that table's columns and data types. -/
theorem get_schema_contract (conn : Connection) :
    (∀ ts, conn.listTables () = .ok ts →
      get_schema conn none = .ok (renderTableList ts)) ∧
    (∀ t cols, conn.tableInfo t = .ok cols →
      get_schema conn (some t) = .ok (renderColumns t cols)) := by
  refine ⟨fun ts hts => ?_, fun t cols hc => ?_⟩
  · simp [get_schema, hts, Except.map]
  · simp [get_schema, hc, Except.map]

/-- Witness for C3 at a concrete connection with two tables. -/
theorem get_schema_contract_witness :
    get_schema echoConn none = .ok (renderTableList ["users", "orders"]) ∧
    get_schema echoConn (some "users") =
      .ok (renderColumns "users" [("id", "INTEGER"), ("name", "TEXT")]) :=
  ⟨(get_schema_contract echoConn).1 ["users", "orders"] rfl,
   (get_schema_contract echoConn).2 "users" [("id", "INTEGER"), ("name", "TEXT")]
      rfl⟩

/-- Claim C5: when a query-history list is supplied to `create_agent`, every
SQL string executed through the `execute_sql` tool is appended to it as a side
effect, the entries appear in exactly the order of the `execute_sql` calls,
and no entry is deduplicated or evicted: after any tool-call sequence the
history is exactly the initial list followed by the executed queries in call
order. -/
theorem query_history_appends_in_order (conn : Connection)
    (calls : List ToolCall) (h₀ : List String) (fs₀ : List (String × String)) :
    (runTools conn calls ⟨some h₀, fs₀⟩).history =
      some (h₀ ++ sqlQueries calls) := by
  simp [runTools_history]

/-- The framework loop never performs more tool calls than its iteration
budget. -/
theorem reactToolCallCount_le (policy : Nat → StepDecision) :
    ∀ fuel step, reactToolCallCount policy fuel step ≤ fuel := by
  intro fuel
  induction fuel with
  | zero => intro step; simp [reactToolCallCount]
  | succ n ih =>
    intro step
    cases hp : policy step with
    | finish a => simp [reactToolCallCount, hp]
    | callTool c =>
      simp only [reactToolCallCount, hp]
      exact Nat.succ_le_succ (ih (step + 1))

/-- Claim C6: one agent invocation (`SQLAgent.forward`) performs at most
seven tool calls: the ReAct loop is constructed with `max_iters=7` and the
number of tool calls in a run never exceeds that cap, whatever the external
model's policy. -/
theorem forward_at_most_seven_tool_calls (toolNames : List String)
    (policy : Nat → StepDecision) :
    SQLAgent.forwardToolCalls (SQLAgent.init toolNames) policy ≤ 7 :=
  reactToolCallCount_le policy 7 0

/-- Reading back a freshly written file yields exactly the written
contents. -/
theorem readFileAt_writeFileAt (fs : List (String × String)) (p c : String) :
    readFileAt (writeFileAt fs p c) p = some c := by
  simp [readFileAt, writeFileAt]

/-- Claim C7: `save_data_to_csv` writes the CSV rendering of the input rows
at exactly the given path — reading the path back yields precisely that text —
and returns a success message containing the path of the saved file. -/
theorem save_csv_contract (fs : List (String × String))
    (data : List (List String)) (p : String) :
    readFileAt (save_data_to_csv fs data p).1 p = some (csvText data) ∧
    (save_data_to_csv fs data p).2 = "Data saved successfully to " ++ p :=
  ⟨readFileAt_writeFileAt fs p (csvText data), rfl⟩

/-- Claim C8: unlike `execute_sql`, `get_schema` catches nothing: when the
underlying driver raises an error, that error propagates to the caller
unchanged instead of being converted into a returned string. -/
theorem get_schema_propagates_errors (conn : Connection) (e : String) :
    (conn.listTables () = .error e → get_schema conn none = .error e) ∧
    (∀ t, conn.tableInfo t = .error e →
      get_schema conn (some t) = .error e) := by
  refine ⟨fun h => ?_, fun t h => ?_⟩
  · simp [get_schema, h, Except.map]
  · simp [get_schema, h, Except.map]

/-- Witness for C8 at a concrete failing connection: the driver error text is
propagated as an error, not returned as an ordinary string. -/
theorem get_schema_propagates_errors_witness :
    get_schema errConn none = .error "database is locked" ∧
    get_schema errConn (some "users") = .error "database is locked" :=
  ⟨(get_schema_propagates_errors errConn "database is locked").1 rfl,
   (get_schema_propagates_errors errConn "database is locked").2 "users" rfl⟩

/-- Claim C9: `create_agent` always returns a constructed agent and never
`None`: the early-return guard is unreachable because `configure_llm`
unconditionally constructs and returns a language-model object, which is
truthy. -/
theorem create_agent_never_none (conn : Connection)
    (qh : Option (List String)) :
    (configure_llm).pyTruthy = true ∧
    create_agent conn qh =
      some (SQLAgent.init ["execute_sql", "get_schema", "save_data_to_csv"]) :=
  ⟨rfl, rfl⟩

/-- Claim C10: only the `execute_sql` closure captures the query-history
list: a `get_schema` tool call and a `save_data_to_csv` tool call leave the
history exactly unchanged, and over any tool-call sequence the history gains
exactly the strings passed to `execute_sql`, so history entries can only ever
be SQL strings that were passed to `execute_sql`. -/
theorem history_only_touched_by_execute_sql (conn : Connection)
    (t : Option String) (data : List (List String)) (p : String) (w : World)
    (calls : List ToolCall) :
    (runTool conn w (.getSchema t)).history = w.history ∧
    (runTool conn w (.saveCsv data p)).history = w.history ∧
    (runTools conn calls w).history =
      w.history.map (fun l => l ++ sqlQueries calls) :=
  ⟨rfl, rfl, runTools_history conn calls w⟩
